import Mathlib

/-!
A Lean model of the fooswap backend (src/db.rs, src/indexer.rs,
src/routes.rs).  The SQLite store is modelled as in-memory lists of rows
in insertion order; f64 reserve/amount columns are modelled as rationals
and i64 timestamps as Int; rusqlite write failures are made explicit in a
separate fallible layer used to study error propagation.
-/

/-- A row of the pools table (db.rs, init_db schema). -/
structure Pool where
  pool_id : String
  token_a : String
  token_b : String
  reserve_a : ℚ
  reserve_b : ℚ
  last_updated : Int
deriving Repr, DecidableEq

/-- A row of the swaps table (db.rs, init_db schema); id is the
AUTOINCREMENT primary key and tx_digest carries the UNIQUE constraint. -/
structure Swap where
  id : Nat
  pool_id : String
  amount_in : ℚ
  amount_out : ℚ
  timestamp : Int
  tx_digest : String
deriving Repr, DecidableEq

/-- The persistent store: the two tables plus the next AUTOINCREMENT id. -/
structure Store where
  pools : List Pool
  swaps : List Swap
  nextId : Nat
deriving Repr, DecidableEq

/-- The store right after init_db on a fresh database file. -/
def store0 : Store := ⟨[], [], 1⟩

/-- Whether a pools row with this pool_id exists (the ON CONFLICT key). -/
def hasPool (s : Store) (pid : String) : Bool :=
  s.pools.any (fun p => p.pool_id == pid)

/-- Whether a swaps row with this tx_digest exists (the UNIQUE key). -/
def hasDigest (s : Store) (d : String) : Bool :=
  s.swaps.any (fun sw => sw.tx_digest == d)

/-- db.rs upsert_pool: INSERT .. ON CONFLICT(pool_id) DO UPDATE SET
reserve_a, reserve_b, last_updated.  On conflict only the reserves and
the timestamp are replaced; otherwise a fresh row is inserted. -/
def upsert_pool (s : Store) (pool_id token_a token_b : String)
    (reserve_a reserve_b : ℚ) (last_updated : Int) : Store :=
  if hasPool s pool_id then
    { s with pools := s.pools.map (fun p =>
        if p.pool_id == pool_id then
          { p with reserve_a := reserve_a, reserve_b := reserve_b,
                   last_updated := last_updated }
        else p) }
  else
    { s with pools := s.pools ++
        [⟨pool_id, token_a, token_b, reserve_a, reserve_b, last_updated⟩] }

/-- db.rs insert_swap: INSERT OR IGNORE INTO swaps; a row whose tx_digest
already exists leaves the table unchanged and still succeeds. -/
def insert_swap (s : Store) (pool_id : String) (amount_in amount_out : ℚ)
    (timestamp : Int) (tx_digest : String) : Store :=
  if hasDigest s tx_digest then s
  else
    { s with
      swaps := s.swaps ++
        [⟨s.nextId, pool_id, amount_in, amount_out, timestamp, tx_digest⟩],
      nextId := s.nextId + 1 }

/-- Substring containment, modelling Rust str::contains with a string
pattern, as used by the event-type dispatch in process_events. -/
def containsSubstr (hay needle : String) : Bool :=
  (List.range (hay.length + 1)).any
    (fun i => needle.toList.isPrefixOf (hay.toList.drop i))

/-- Field lookup in a JSON object modelled as an association list of its
string-valued fields; a missing key (or a non-string value, for which
as_str() is None) is absence. -/
def jsonLookup (fields : List (String × String)) (k : String) : Option String :=
  (fields.find? (fun kv => kv.1 == k)).map (fun kv => kv.2)

/-- A nonempty all-digit character sequence read as a natural number;
none otherwise. -/
def digitsToNat? (cs : List Char) : Option Nat :=
  match cs with
  | [] => none
  | _ => cs.foldl
      (fun acc c =>
        match acc with
        | none => none
        | some n => if c.isDigit then some (n * 10 + (c.toNat - 48)) else none)
      (some 0)

/-- Parse of an unsigned decimal numeral (digits with at most one decimal
point), the shapes the events carry. -/
def parseUnsignedChars? (cs : List Char) : Option ℚ :=
  let w := cs.takeWhile (fun c => !(c == '.'))
  match cs.drop w.length with
  | [] => (digitsToNat? w).map (fun n => (n : ℚ))
  | _ :: f =>
    if f.any (fun d => d == '.') then none
    else
      match digitsToNat? w, digitsToNat? f with
      | some wn, some fn => some ((wn : ℚ) + (fn : ℚ) / ((10 : ℚ) ^ f.length))
      | _, _ => none

/-- Decimal parse modelling str::parse::<f64> on the decimal strings the
events carry; none when parsing fails. -/
def parseDecimal? (s : String) : Option ℚ :=
  match s.toList with
  | [] => none
  | c :: rest =>
    if c == '-' then (parseUnsignedChars? rest).map (fun q => -q)
    else parseUnsignedChars? (c :: rest)

/-- as_str().unwrap_or("0").parse::<f64>().unwrap_or(0.0) on a parsedJson
field of the raw event. -/
def parseNumOrZero (s : Option String) : ℚ :=
  (parseDecimal? (s.getD "0")).getD 0

/-- Signed integer parse modelling str::parse::<i64>; none on failure. -/
def parseIntChars? (cs : List Char) : Option Int :=
  match cs with
  | [] => none
  | c :: rest =>
    if c == '-' then (digitsToNat? rest).map (fun n => -(n : Int))
    else (digitsToNat? cs).map (fun n => (n : Int))

/-- timestampMs handling in process_events:
as_str().unwrap_or("0").parse::<i64>().unwrap_or(0). -/
def parseTsOrZero (s : Option String) : Int :=
  (parseIntChars? (s.getD "0").toList).getD 0

/-- A raw Sui event as read by process_events: the type tag, the
transaction digest at id.txDigest, timestampMs, and the parsedJson
string fields.  An absent field is none / missing from the list. -/
structure RawEvent where
  eventType : Option String
  txDigest : Option String
  timestampMs : Option String
  parsedJson : List (String × String)
deriving Repr, DecidableEq

/-- evt["type"].as_str().unwrap_or_default(). -/
def evtType (e : RawEvent) : String := e.eventType.getD ""

/-- evt["id"]["txDigest"].as_str().unwrap_or_default(). -/
def evtDigest (e : RawEvent) : String := e.txDigest.getD ""

/-- evt["timestampMs"] parsed to i64 with default 0. -/
def evtTs (e : RawEvent) : Int := parseTsOrZero e.timestampMs

/-- A string field of parsedJson with default "". -/
def evtField (e : RawEvent) (k : String) : String :=
  (jsonLookup e.parsedJson k).getD ""

/-- A numeric field of parsedJson with default 0. -/
def evtNum (e : RawEvent) (k : String) : ℚ :=
  parseNumOrZero (jsonLookup e.parsedJson k)

/-- indexer.rs DEX_PACKAGE_ID. -/
def DEX_PACKAGE_ID : String :=
  "0x1c2be4cfbf91fe8d71aedeb83cbe680475b70359bab87900df99ecd787ca5474"

/-- The fully-qualified PoolCreatedEvent type string built in
query_sui_events. -/
def poolCreatedEventType : String := DEX_PACKAGE_ID ++ "::fooswap::PoolCreatedEvent"

/-- The fully-qualified SwapEvent type string built in query_sui_events. -/
def swapEventType : String := DEX_PACKAGE_ID ++ "::fooswap::SwapEvent"

/-- One iteration of the loop body of process_events (indexer.rs):
dispatch on the type tag by substring containment, extract fields with
zero/empty defaults, and write to the store. -/
def process_event (s : Store) (evt : RawEvent) : Store :=
  let ts := evtTs evt
  let tx_digest := evtDigest evt
  let event_type := evtType evt
  if containsSubstr event_type "PoolCreatedEvent" then
    upsert_pool s (evtField evt "pool_id") (evtField evt "token_a")
      (evtField evt "token_b") (evtNum evt "initial_reserve_a")
      (evtNum evt "initial_reserve_b") ts
  else if containsSubstr event_type "SwapEvent" then
    let s1 := insert_swap s (evtField evt "pool_id") (evtNum evt "amount_in")
      (evtNum evt "amount_out") ts tx_digest
    upsert_pool s1 (evtField evt "pool_id") "" "" (evtNum evt "new_reserve_a")
      (evtNum evt "new_reserve_b") ts
  else s

/-- indexer.rs process_events: apply each event in list order. -/
def process_events (s : Store) (events : List RawEvent) : Store :=
  events.foldl process_event s

/-- Classification of fetch failures in query_sui_events: the send call
failing, a non-2xx HTTP status, or a body that does not deserialize. -/
inductive FetchError where
  | transport
  | status
  | json
deriving Repr, DecidableEq

/-- The observable outcome of one HTTP round trip of query_sui_events:
whether send failed, whether the status was 2xx, whether the body parsed
as JSON, and the array at result.data when present. -/
structure RpcReply where
  sendFailed : Bool
  statusSuccess : Bool
  jsonParses : Bool
  resultData : Option (List RawEvent)
deriving Repr, DecidableEq

/-- One loop iteration of query_sui_events for a single event type: a
send failure or a non-2xx status or an undeserializable body aborts the
whole fetch; an absent result.data contributes no events. -/
def fetch_events_for_type (r : RpcReply) : Except FetchError (List RawEvent) :=
  if r.sendFailed then .error .transport
  else if !r.statusSuccess then .error .status
  else if !r.jsonParses then .error .json
  else .ok (r.resultData.getD [])

/-- indexer.rs query_sui_events: one query per event type, the
PoolCreatedEvent type first and the SwapEvent type second; any per-type
error aborts the fetch, and the per-type event lists are concatenated in
query order into all_events. -/
def query_sui_events (rPool rSwap : RpcReply) :
    Except FetchError (List RawEvent) := do
  let e1 ← fetch_events_for_type rPool
  let e2 ← fetch_events_for_type rSwap
  pure (e1 ++ e2)

/-- A fully successful RPC reply carrying the given result.data array. -/
def rpcOk (d : List RawEvent) : RpcReply := ⟨false, true, true, some d⟩

/-- One iteration of the run_indexer loop body (indexer.rs), given the
current cursor last_ts, the freshly computed to_ts and the fetch result:
a successful nonempty fetch is processed and sets the cursor to to_ts; an
empty success or a failed fetch leaves cursor and store unchanged. -/
def indexer_step (cursor to_ts : Int)
    (fetched : Except FetchError (List RawEvent)) (s : Store) : Int × Store :=
  match fetched with
  | .ok events =>
    if events.isEmpty then (cursor, s)
    else (to_ts, process_events s events)
  | .error _ => (cursor, s)

/-- A write failure of the persistent store (a rusqlite error). -/
inductive StoreError where
  | writeFailed
deriving Repr, DecidableEq

/-- upsert_pool with the rusqlite failure path explicit: dbFail says the
underlying conn.execute call fails, leaving the table unchanged. -/
def upsert_pool_r (dbFail : Bool) (s : Store) (pool_id token_a token_b : String)
    (reserve_a reserve_b : ℚ) (last_updated : Int) : Except StoreError Store :=
  if dbFail then .error .writeFailed
  else .ok (upsert_pool s pool_id token_a token_b reserve_a reserve_b last_updated)

/-- insert_swap with the rusqlite failure path explicit. -/
def insert_swap_r (dbFail : Bool) (s : Store) (pool_id : String)
    (amount_in amount_out : ℚ) (timestamp : Int) (tx_digest : String) :
    Except StoreError Store :=
  if dbFail then .error .writeFailed
  else .ok (insert_swap s pool_id amount_in amount_out timestamp tx_digest)

/-- Bookkeeping around process_events: the store, how many store write
calls returned an error, and the errors the code surfaced (logged or
propagated to the caller). -/
structure ProcState where
  store : Store
  dbFailures : Nat
  surfaced : List StoreError
deriving Repr, DecidableEq

/-- The effect of a Rust binding of a store-write Result to the wildcard
pattern: a success replaces the store, an error is counted but neither
logged nor propagated. -/
def discardResult (ps : ProcState) (r : Except StoreError Store) : ProcState :=
  match r with
  | .ok s => { ps with store := s }
  | .error _ => { ps with dbFailures := ps.dbFailures + 1 }

/-- The loop body of process_events over the fallible store layer; every
write result is bound to the wildcard, mirroring the source. -/
def process_event_f (dbFail : Bool) (ps : ProcState) (evt : RawEvent) : ProcState :=
  let ts := evtTs evt
  let event_type := evtType evt
  if containsSubstr event_type "PoolCreatedEvent" then
    discardResult ps (upsert_pool_r dbFail ps.store (evtField evt "pool_id")
      (evtField evt "token_a") (evtField evt "token_b")
      (evtNum evt "initial_reserve_a") (evtNum evt "initial_reserve_b") ts)
  else if containsSubstr event_type "SwapEvent" then
    let ps1 := discardResult ps (insert_swap_r dbFail ps.store
      (evtField evt "pool_id") (evtNum evt "amount_in")
      (evtNum evt "amount_out") ts (evtDigest evt))
    discardResult ps1 (upsert_pool_r dbFail ps1.store (evtField evt "pool_id")
      "" "" (evtNum evt "new_reserve_a") (evtNum evt "new_reserve_b") ts)
  else ps

/-- process_events over the fallible store layer. -/
def process_events_f (dbFail : Bool) (ps : ProcState) (events : List RawEvent) :
    ProcState :=
  events.foldl (process_event_f dbFail) ps

/-- The JSON value returned by price_handler, reduced to its two shapes:
the ok envelope with pair, pool_id and price, or the error envelope. -/
inductive PriceResult where
  | ok (pair pool_id : String) (price : ℚ)
  | err (message : String)
deriving Repr, DecidableEq

/-- Rust str::split with the slash pattern: every slash separates
segments, and empty segments are kept. -/
def splitSlash (cs : List Char) : List (List Char) :=
  match cs with
  | [] => [[]]
  | c :: rest =>
    let r := splitSlash rest
    if c == '/' then [] :: r
    else
      match r with
      | [] => [[c]]
      | h :: t => (c :: h) :: t

/-- routes.rs price_handler: validate the pair parameter, split it on the
slash into exactly two tokens, look the pair up among the pools (first
match), and price it as reserve_b / reserve_a, or 0 when reserve_a is
not positive. -/
def price_handler (s : Store) (params : List (String × String)) : PriceResult :=
  match jsonLookup params "pair" with
  | none => .err "Missing pair query parameter"
  | some pair =>
    match (splitSlash pair.toList).map (fun cs => String.mk cs) with
    | [token_a, token_b] =>
      match s.pools.find? (fun p => p.token_a == token_a && p.token_b == token_b) with
      | some p =>
        .ok pair p.pool_id (if p.reserve_a > 0 then p.reserve_b / p.reserve_a else 0)
      | none => .err ("No pool found for " ++ pair)
    | _ => .err "Query parameter pair must be in the form TOKENA/TOKENB"

/-- The UNIQUE constraint on swaps.tx_digest, as a property of the
modelled table: pairwise distinct digests. -/
def DedupOk (s : Store) : Prop :=
  s.swaps.Pairwise (fun a b => a.tx_digest ≠ b.tx_digest)

/-- upsert_pool never touches the swaps table or the sequence counter. -/
theorem upsert_pool_swaps (s : Store) (pid ta tb : String) (ra rb : ℚ)
    (ts : Int) : (upsert_pool s pid ta tb ra rb ts).swaps = s.swaps := by
  unfold upsert_pool
  split <;> rfl

/-- After any upsert_pool call a row with the call's pool_id, reserves
and timestamp is present. -/
theorem upsert_pool_mem (s : Store) (pid ta tb : String) (ra rb : ℚ)
    (ts : Int) :
    ∃ p ∈ (upsert_pool s pid ta tb ra rb ts).pools,
      p.pool_id = pid ∧ p.reserve_a = ra ∧ p.reserve_b = rb ∧
      p.last_updated = ts := by
  unfold upsert_pool
  by_cases h : hasPool s pid = true
  · rw [if_pos h]
    obtain ⟨q, hq, hqid⟩ := List.any_eq_true.mp h
    refine ⟨{ q with reserve_a := ra, reserve_b := rb, last_updated := ts },
      List.mem_map.mpr ⟨q, hq, by rw [if_pos hqid]⟩, ?_, rfl, rfl, rfl⟩
    exact beq_iff_eq.mp hqid
  · rw [if_neg h]
    exact ⟨⟨pid, ta, tb, ra, rb, ts⟩, by simp, rfl, rfl, rfl, rfl⟩

/-- Claim C1: the store holds at most one swap row per transaction
digest.  insert_swap preserves digest-uniqueness for every sequence of
insertions, a digest that already exists makes the call a silent no-op
that still succeeds, and inserting digests d1, d1, d2 into the fresh
store leaves exactly 2 swap rows. -/
theorem c1_swap_dedup (s : Store) (h : DedupOk s) (pid : String)
    (ai ao : ℚ) (ts : Int) (d : String) :
    DedupOk (insert_swap s pid ai ao ts d) ∧
    (hasDigest s d = true → insert_swap s pid ai ao ts d = s) ∧
    (insert_swap (insert_swap (insert_swap store0 "p" 1 1 1 "d1")
        "p" 2 2 2 "d1") "p" 3 3 3 "d2").swaps.length = 2 := by
  refine ⟨?_, ?_, by decide⟩
  · unfold insert_swap
    by_cases hd : hasDigest s d = true
    · rw [if_pos hd]; exact h
    · rw [if_neg hd]
      have hall : ∀ sw ∈ s.swaps, sw.tx_digest ≠ d := by
        intro sw hsw heq
        exact hd (by unfold hasDigest
                     exact List.any_eq_true.mpr ⟨sw, hsw, by simp [heq]⟩)
      unfold DedupOk at h ⊢
      rw [List.pairwise_append]
      refine ⟨h, List.pairwise_singleton _ _, ?_⟩
      intro a ha b hb
      rw [List.mem_singleton] at hb
      rw [hb]
      exact hall a ha
  · intro hd
    unfold insert_swap
    rw [if_pos hd]

/-- Witness for c1_swap_dedup at the fresh store. -/
theorem c1_swap_dedup_witness :
    DedupOk store0 ∧
    (DedupOk (insert_swap store0 "p" 1 1 5 "d1") ∧
     (hasDigest store0 "d1" = true → insert_swap store0 "p" 1 1 5 "d1" = store0) ∧
     (insert_swap (insert_swap (insert_swap store0 "p" 1 1 1 "d1")
        "p" 2 2 2 "d1") "p" 3 3 3 "d2").swaps.length = 2) :=
  ⟨List.Pairwise.nil, c1_swap_dedup store0 List.Pairwise.nil "p" 1 1 5 "d1"⟩

/-- Claim C5: upsert_pool creates the pool row when the pool_id is
absent, otherwise it unconditionally overwrites reserves and timestamp
with the arguments of the latest call; the two-call example leaves p1
with reserves (90, 210) and last_updated 20 regardless of the later
call's empty token arguments. -/
theorem c5_upsert_last_writer (s : Store) (pid ta tb : String) (ra rb : ℚ)
    (ts : Int) (h : hasPool s pid = false) :
    (upsert_pool s pid ta tb ra rb ts).pools
      = s.pools ++ [⟨pid, ta, tb, ra, rb, ts⟩] ∧
    (∀ s2 ta2 tb2 ra2 rb2 ts2,
      ∃ p ∈ (upsert_pool s2 pid ta2 tb2 ra2 rb2 ts2).pools,
        p.pool_id = pid ∧ p.reserve_a = ra2 ∧ p.reserve_b = rb2 ∧
        p.last_updated = ts2) ∧
    (upsert_pool (upsert_pool store0 "p1" "A" "B" 100 200 10)
        "p1" "" "" 90 210 20).pools = [⟨"p1", "A", "B", 90, 210, 20⟩] := by
  refine ⟨?_, ?_, by decide⟩
  · unfold upsert_pool
    rw [if_neg (by simp [h])]
  · intro s2 ta2 tb2 ra2 rb2 ts2
    exact upsert_pool_mem s2 pid ta2 tb2 ra2 rb2 ts2

/-- Witness for c5_upsert_last_writer at the fresh store. -/
theorem c5_upsert_last_writer_witness :
    hasPool store0 "p1" = false ∧
    ((upsert_pool store0 "p1" "A" "B" 100 200 10).pools
      = store0.pools ++ [⟨"p1", "A", "B", 100, 200, 10⟩] ∧
    (∀ s2 ta2 tb2 ra2 rb2 ts2,
      ∃ p ∈ (upsert_pool s2 "p1" ta2 tb2 ra2 rb2 ts2).pools,
        p.pool_id = "p1" ∧ p.reserve_a = ra2 ∧ p.reserve_b = rb2 ∧
        p.last_updated = ts2) ∧
    (upsert_pool (upsert_pool store0 "p1" "A" "B" 100 200 10)
        "p1" "" "" 90 210 20).pools = [⟨"p1", "A", "B", 90, 210, 20⟩]) :=
  ⟨by decide, c5_upsert_last_writer store0 "p1" "A" "B" 100 200 10 (by decide)⟩

/-- Claim C10: a call to upsert_pool on an existing pool row changes only
the reserve_a, reserve_b and last_updated columns: the projection of the
pools table to (pool_id, token_a, token_b) is unchanged, whatever token
arguments the call passes. -/
theorem c10_upsert_frame (s : Store) (pid ta tb : String) (ra rb : ℚ)
    (ts : Int) (h : hasPool s pid = true) :
    ((upsert_pool s pid ta tb ra rb ts).pools.map
        (fun p => (p.pool_id, p.token_a, p.token_b)))
      = s.pools.map (fun p => (p.pool_id, p.token_a, p.token_b)) := by
  unfold upsert_pool
  rw [if_pos h, List.map_map]
  refine List.map_congr_left ?_
  intro p hp
  by_cases hid : (p.pool_id == pid) = true
  · simp only [Function.comp_apply, if_pos hid]
  · simp only [Function.comp_apply, if_neg hid]

/-- Witness for c10_upsert_frame on a store holding pool p1 with tokens
A and B: a later call passing different tokens leaves them unchanged. -/
theorem c10_upsert_frame_witness :
    hasPool ⟨[⟨"p1", "A", "B", 100, 200, 10⟩], [], 1⟩ "p1" = true ∧
    ((upsert_pool ⟨[⟨"p1", "A", "B", 100, 200, 10⟩], [], 1⟩
        "p1" "X" "Y" 90 210 20).pools.map
        (fun p => (p.pool_id, p.token_a, p.token_b)))
      = ([⟨"p1", "A", "B", 100, 200, 10⟩] : List Pool).map
          (fun p => (p.pool_id, p.token_a, p.token_b)) :=
  ⟨by decide, c10_upsert_frame ⟨[⟨"p1", "A", "B", 100, 200, 10⟩], [], 1⟩
    "p1" "X" "Y" 90 210 20 (by decide)⟩

/-- A raw event whose type string merely contains the name
PoolCreatedEvent without equalling either fully-qualified event type
built from DEX_PACKAGE_ID. -/
def evC2 : RawEvent :=
  ⟨some "0xdead::fooswap::PoolCreatedEvent", some "t1", some "5",
   [("pool_id", "p1")]⟩

/-- Claim C2 counterexample: an event whose type string is not equal to
either fully-qualified event type but contains the name
PoolCreatedEvent is nevertheless classified and changes the store, so
classification is not by exact match. -/
theorem c2_exact_dispatch_cex :
    evtType evC2 ≠ poolCreatedEventType ∧
    evtType evC2 ≠ swapEventType ∧
    containsSubstr (evtType evC2) "PoolCreatedEvent" = true ∧
    process_event store0 evC2 ≠ store0 := by decide

/-- Claim C2 (amended): process_events classifies an event by substring
containment of the event names in its type string, not by exact equality
with the fully-qualified type strings; an event whose type contains
neither "PoolCreatedEvent" nor "SwapEvent" produces no state change. -/
theorem c2_substring_dispatch (s : Store) (evt : RawEvent)
    (h1 : containsSubstr (evtType evt) "PoolCreatedEvent" = false)
    (h2 : containsSubstr (evtType evt) "SwapEvent" = false) :
    process_event s evt = s := by
  simp only [process_event, h1, h2]
  rfl

/-- Witness for c2_substring_dispatch on an unrelated event type. -/
theorem c2_substring_dispatch_witness :
    containsSubstr (evtType ⟨some "0x1::other::Thing", none, some "5", []⟩)
      "PoolCreatedEvent" = false ∧
    containsSubstr (evtType ⟨some "0x1::other::Thing", none, some "5", []⟩)
      "SwapEvent" = false ∧
    process_event store0 ⟨some "0x1::other::Thing", none, some "5", []⟩
      = store0 :=
  ⟨by decide, by decide,
   c2_substring_dispatch store0 ⟨some "0x1::other::Thing", none, some "5", []⟩
     (by decide) (by decide)⟩

/-- Claim C3 counterexample: a successful fetch returning an empty event
list leaves the cursor unchanged at last_ts instead of advancing it to
to_ts. -/
theorem c3_cursor_cex :
    indexer_step 0 100 (Except.ok ([] : List RawEvent)) store0
      = (0, store0) ∧
    (indexer_step 0 100 (Except.ok ([] : List RawEvent)) store0).1 ≠ 100 := by
  decide

/-- Claim C3 (amended): in a poll cycle the cursor advances to to_ts if
and only if the fetch succeeded with a nonempty event list; a failed
fetch and also an empty successful fetch leave the cursor unchanged. -/
theorem c3_cursor_advance (c t : Int) (r : Except FetchError (List RawEvent))
    (s : Store) (h : c ≠ t) :
    (indexer_step c t r s).1 = t ↔
      ∃ events, r = Except.ok events ∧ events ≠ [] := by
  cases r with
  | ok events =>
    cases events with
    | nil => simp [indexer_step, h]
    | cons e es =>
      constructor
      · intro _
        exact ⟨e :: es, rfl, List.cons_ne_nil e es⟩
      · intro _
        simp [indexer_step]
  | error err => simp [indexer_step, h]

/-- An arbitrary raw event used to exercise the nonempty fetch path. -/
def evC3 : RawEvent := ⟨some "irrelevant", none, some "50", []⟩

/-- Witness for c3_cursor_advance with a distinct cursor and to_ts. -/
theorem c3_cursor_advance_witness :
    (0 : Int) ≠ 100 ∧
    ((indexer_step 0 100 (Except.ok [evC3]) store0).1 = 100 ↔
      ∃ events, (Except.ok [evC3] : Except FetchError (List RawEvent))
        = Except.ok events ∧ events ≠ []) :=
  ⟨by decide, c3_cursor_advance 0 100 (Except.ok [evC3]) store0 (by decide)⟩

/-- A PoolCreated event carrying timestamp 200. -/
def pcC4 : RawEvent :=
  ⟨some poolCreatedEventType, some "t1", some "200",
   [("pool_id", "p1"), ("token_a", "A"), ("token_b", "B"),
    ("initial_reserve_a", "100"), ("initial_reserve_b", "200")]⟩

/-- A Swap event carrying the earlier timestamp 100. -/
def swC4 : RawEvent :=
  ⟨some swapEventType, some "d1", some "100",
   [("pool_id", "p1"), ("amount_in", "10"), ("amount_out", "5"),
    ("new_reserve_a", "80"), ("new_reserve_b", "120")]⟩

/-- Claim C4 counterexample: a poll cycle that retrieved one event of
each kind applies them in fetch order, PoolCreated first: the applied
timestamp sequence is [200, 100], which is not increasing, and the final
pool state reflects the ts-100 swap because it was applied last. -/
theorem c4_ts_order_cex :
    query_sui_events (rpcOk [pcC4]) (rpcOk [swC4]) = .ok [pcC4, swC4] ∧
    [pcC4, swC4].map evtTs = [200, 100] ∧
    ¬ List.Chain' (fun a b => a ≤ b) ([pcC4, swC4].map evtTs) ∧
    (process_events store0 [pcC4, swC4]).pools
      = [⟨"p1", "A", "B", 80, 120, 100⟩] := by
  have hm : [pcC4, swC4].map evtTs = [200, 100] := by decide
  refine ⟨rfl, hm, ?_, by decide⟩
  rw [hm]
  simp only [List.chain'_cons, List.chain'_singleton, and_true]
  decide

/-- Claim C4 (amended): within one poll cycle the events are applied in
fetch order, all PoolCreated query results first and then all Swap query
results, each batch in arrival order; they are not reordered by
timestamp. -/
theorem c4_fetch_order (dPool dSwap : List RawEvent) (s : Store) :
    query_sui_events (rpcOk dPool) (rpcOk dSwap) = .ok (dPool ++ dSwap) ∧
    process_events s (dPool ++ dSwap)
      = process_events (process_events s dPool) dSwap := by
  constructor
  · rfl
  · simp [process_events, List.foldl_append]

/-- A 2xx reply with well-formed JSON that lacks a result.data array. -/
def rNoData : RpcReply := ⟨false, true, true, none⟩

/-- Claim C6 counterexample: a 2xx response whose JSON lacks a
result.data array is not a fetch failure: the fetch returns a successful
empty event list. -/
theorem c6_fetch_failure_cex :
    rNoData.statusSuccess = true ∧ rNoData.resultData = none ∧
    query_sui_events rNoData rNoData = Except.ok [] :=
  ⟨rfl, rfl, rfl⟩

/-- Claim C6 (amended): a non-2xx HTTP status on either per-type request
makes the fetch fail, but a 2xx well-formed response lacking result.data
is not a failure: it contributes zero events and the fetch succeeds. -/
theorem c6_fetch_failure (j1 j2 : Bool) (d1 d2 : Option (List RawEvent))
    (r2 : RpcReply) :
    query_sui_events ⟨false, false, j1, d1⟩ r2 = .error .status ∧
    query_sui_events ⟨false, true, true, d1⟩ ⟨false, false, j2, d2⟩
      = .error .status ∧
    query_sui_events rNoData rNoData = .ok [] :=
  ⟨rfl, rfl, rfl⟩

/-- Binding a store-write Result to the wildcard never surfaces its
error. -/
theorem discardResult_surfaced (ps : ProcState) (r : Except StoreError Store) :
    (discardResult ps r).surfaced = ps.surfaced := by
  cases r <;> rfl

/-- One fallible processing step never surfaces a store error. -/
theorem process_event_f_surfaced (dbFail : Bool) (ps : ProcState)
    (evt : RawEvent) :
    (process_event_f dbFail ps evt).surfaced = ps.surfaced := by
  simp only [process_event_f]
  split
  · exact discardResult_surfaced _ _
  · split
    · rw [discardResult_surfaced, discardResult_surfaced]
    · rfl

/-- Claim C7 (amended): store write failures during event application
are silently discarded: whatever events are processed and whether or not
the store fails, process_events surfaces nothing. -/
theorem c7_store_errors_silent (dbFail : Bool) (ps : ProcState)
    (events : List RawEvent) :
    (process_events_f dbFail ps events).surfaced = ps.surfaced := by
  induction events generalizing ps with
  | nil => rfl
  | cons e es ih =>
    show (process_events_f dbFail (process_event_f dbFail ps e) es).surfaced
      = ps.surfaced
    rw [ih, process_event_f_surfaced]

/-- A well-formed Swap event used against a failing store. -/
def swC7 : RawEvent :=
  ⟨some swapEventType, some "d7", some "30",
   [("pool_id", "p1"), ("amount_in", "10"), ("amount_out", "5"),
    ("new_reserve_a", "80"), ("new_reserve_b", "120")]⟩

/-- Claim C7 counterexample: with a failing store, applying one Swap
event makes two store writes fail, yet nothing at all is surfaced: both
errors are silently discarded and processing continues. -/
theorem c7_store_errors_silent_cex :
    (process_events_f true ⟨store0, 0, []⟩ [swC7]).dbFailures = 2 ∧
    (process_events_f true ⟨store0, 0, []⟩ [swC7]).surfaced = [] := by decide

/-- A pool with reserve_a = 0 and reserve_b = 50. -/
def storeC8a : Store := ⟨[⟨"p0", "A", "B", 0, 50, 5⟩], [], 1⟩

/-- A pool with reserve_a = 100 and reserve_b = 25. -/
def storeC8b : Store := ⟨[⟨"p9", "A", "B", 100, 25, 5⟩], [], 1⟩

/-- Claim C8: for a stored pool matched by a well-formed pair query the
price endpoint returns reserve_b / reserve_a when reserve_a > 0 and 0
otherwise; the (0, 50) pool prices at 0 and the (100, 25) pool at 1/4,
that is 0.25. -/
theorem c8_price (s : Store) (pair token_a token_b : String) (p : Pool)
    (hsplit : (splitSlash pair.toList).map (fun cs => String.mk cs)
      = [token_a, token_b])
    (hfind : s.pools.find?
        (fun q => q.token_a == token_a && q.token_b == token_b) = some p) :
    price_handler s [("pair", pair)]
      = .ok pair p.pool_id
          (if p.reserve_a > 0 then p.reserve_b / p.reserve_a else 0) ∧
    price_handler storeC8a [("pair", "A/B")] = .ok "A/B" "p0" 0 ∧
    price_handler storeC8b [("pair", "A/B")] = .ok "A/B" "p9" (1 / 4) := by
  refine ⟨?_, by decide, by with_unfolding_all rfl⟩
  have h1 : jsonLookup [("pair", pair)] "pair" = some pair := rfl
  simp only [price_handler, h1, hsplit, hfind]

/-- Witness for c8_price at the (100, 25) pool under the pair A/B. -/
theorem c8_price_witness :
    ((splitSlash ("A/B" : String).toList).map (fun cs => String.mk cs)
      = ["A", "B"]) ∧
    (storeC8b.pools.find?
        (fun q => q.token_a == "A" && q.token_b == "B")
      = some ⟨"p9", "A", "B", 100, 25, 5⟩) ∧
    (price_handler storeC8b [("pair", "A/B")]
      = .ok "A/B" "p9"
          (if (⟨"p9", "A", "B", 100, 25, 5⟩ : Pool).reserve_a > 0 then
            (⟨"p9", "A", "B", 100, 25, 5⟩ : Pool).reserve_b
              / (⟨"p9", "A", "B", 100, 25, 5⟩ : Pool).reserve_a
          else 0) ∧
     price_handler storeC8a [("pair", "A/B")] = .ok "A/B" "p0" 0 ∧
     price_handler storeC8b [("pair", "A/B")] = .ok "A/B" "p9" (1 / 4)) :=
  ⟨by decide, by decide,
   c8_price storeC8b "A/B" "A" "B" ⟨"p9", "A", "B", 100, 25, 5⟩
     (by decide) (by decide)⟩

/-- Claim C9: processing a Swap event whose tx_digest already exists in
the swaps table adds no swap row, but still unconditionally overwrites
the affected pool's reserves and last_updated with the event's
new_reserve_a, new_reserve_b and timestamp. -/
theorem c9_dup_swap (s : Store) (evt : RawEvent)
    (h1 : containsSubstr (evtType evt) "PoolCreatedEvent" = false)
    (h2 : containsSubstr (evtType evt) "SwapEvent" = true)
    (h3 : hasDigest s (evtDigest evt) = true) :
    (process_event s evt).swaps = s.swaps ∧
    process_event s evt
      = upsert_pool s (evtField evt "pool_id") "" ""
          (evtNum evt "new_reserve_a") (evtNum evt "new_reserve_b")
          (evtTs evt) ∧
    ∃ p ∈ (process_event s evt).pools,
      p.pool_id = evtField evt "pool_id" ∧
      p.reserve_a = evtNum evt "new_reserve_a" ∧
      p.reserve_b = evtNum evt "new_reserve_b" ∧
      p.last_updated = evtTs evt := by
  have hp : process_event s evt
      = upsert_pool s (evtField evt "pool_id") "" ""
          (evtNum evt "new_reserve_a") (evtNum evt "new_reserve_b")
          (evtTs evt) := by
    simp only [process_event, h1, h2, Bool.false_eq_true, if_false, if_true]
    simp only [insert_swap, h3, if_true]
  refine ⟨?_, hp, ?_⟩
  · rw [hp, upsert_pool_swaps]
  · rw [hp]
    exact upsert_pool_mem _ _ _ _ _ _ _

/-- A store already holding swap digest d1 for pool p1. -/
def storeC9 : Store :=
  ⟨[⟨"p1", "A", "B", 100, 200, 10⟩], [⟨1, "p1", 1, 2, 10, "d1"⟩], 2⟩

/-- A re-delivered Swap event with digest d1 and different reserves. -/
def swC9 : RawEvent :=
  ⟨some swapEventType, some "d1", some "20",
   [("pool_id", "p1"), ("amount_in", "7"), ("amount_out", "3"),
    ("new_reserve_a", "80"), ("new_reserve_b", "120")]⟩

/-- Witness for c9_dup_swap: the duplicate event changes the pool state
while the swap history does not grow. -/
theorem c9_dup_swap_witness :
    containsSubstr (evtType swC9) "PoolCreatedEvent" = false ∧
    containsSubstr (evtType swC9) "SwapEvent" = true ∧
    hasDigest storeC9 (evtDigest swC9) = true ∧
    ((process_event storeC9 swC9).swaps = storeC9.swaps ∧
     process_event storeC9 swC9
       = upsert_pool storeC9 (evtField swC9 "pool_id") "" ""
           (evtNum swC9 "new_reserve_a") (evtNum swC9 "new_reserve_b")
           (evtTs swC9) ∧
     ∃ p ∈ (process_event storeC9 swC9).pools,
       p.pool_id = evtField swC9 "pool_id" ∧
       p.reserve_a = evtNum swC9 "new_reserve_a" ∧
       p.reserve_b = evtNum swC9 "new_reserve_b" ∧
       p.last_updated = evtTs swC9) :=
  ⟨by decide, by decide, by decide,
   c9_dup_swap storeC9 swC9 (by decide) (by decide) (by decide)⟩
